import Mathlib

/-!
Verification of the stock-analysis pipeline (`src/agents/synthesizer_agent.py`,
`src/orchestrator/langgraph_flow.py`, `src/orchestrator/routing.py`,
`src/orchestrator/portfolio_workflow.py`) against its natural-language
specification.

The Python code is shallowly embedded: dictionaries whose keys are fixed in the
source become structures of `Option` fields (an absent key is `none`), Python
floats on the audited paths are modelled as rationals, `round(x, 2)` as
`round2`, and Python's ASCII-relevant `str.upper`/`str.lower`/`in` operators as
executable functions over `List Char` (every vocabulary word the code matches
against is ASCII).  Asynchronous producer calls are external collaborators, so
each pipeline stage is embedded as a pure function taking the outcome of its
external calls (`Except String α` for a call that may raise) explicitly.
-/

/-! ## Python string primitives -/

/-- ASCII case-mapping used by `str.upper()` on the vocabulary strings that the
synthesizer matches against (all of which are ASCII). -/
def upperChar (c : Char) : Char :=
  if 'a' ≤ c ∧ c ≤ 'z' then Char.ofNat (c.toNat - 32) else c

/-- ASCII case-mapping used by `str.lower()` on the time-horizon strings. -/
def lowerChar (c : Char) : Char :=
  if 'A' ≤ c ∧ c ≤ 'Z' then Char.ofNat (c.toNat + 32) else c

/-- `s.upper()` as a character list. -/
def toUpperStr (s : String) : List Char := s.data.map upperChar

/-- `s.lower()` as a character list. -/
def toLowerStr (s : String) : List Char := s.data.map lowerChar

/-- Boolean list-prefix test (Python string comparison is character-wise). -/
def isPrefixB : List Char → List Char → Bool
  | [], _ => true
  | _ :: _, [] => false
  | a :: as, b :: bs => a == b && isPrefixB as bs

/-- Boolean contiguous-substring test: Python's `needle in hay` on strings. -/
def isInfixB (needle : List Char) : List Char → Bool
  | [] => needle.isEmpty
  | c :: rest => isPrefixB needle (c :: rest) || isInfixB needle rest

/-! ## Synthesizer data model

`SynthesizerAgent._calculate_weighted_scores` reads its four component
dictionaries only through `.get(key, default)`, so each dictionary is embedded
as the structure of exactly the keys the code reads; `none` models an absent
key, and the all-`none` value models the empty dict `{}`. Scores are `ℤ`
(the agent schemas in `src/agents/schemas.py` declare them `int`). -/

structure FundamentalDict where
  score : Option ℤ
  rating : Option String
deriving DecidableEq, Repr

structure TechnicalDict where
  score : Option ℤ
  signal : Option String
deriving DecidableEq, Repr

structure MarketIntelDict where
  score : Option ℤ
  overall_sentiment : Option String
deriving DecidableEq, Repr

structure RiskDict where
  risk_score : Option ℤ
deriving DecidableEq, Repr

structure UserContext where
  time_horizon : Option String
deriving DecidableEq, Repr

/-- The empty dict `{}` seen through the keys `_calculate_weighted_scores` reads. -/
def emptyFund : FundamentalDict := ⟨none, none⟩

def emptyTech : TechnicalDict := ⟨none, none⟩

def emptyIntel : MarketIntelDict := ⟨none, none⟩

def emptyRisk : RiskDict := ⟨none⟩

def emptyCtx : UserContext := ⟨none⟩

/-- The weight dictionaries of `_calculate_weighted_scores` (lines 111-116). -/
structure Weights where
  fundamental : ℚ
  technical : ℚ
  market_intel : ℚ
  risk : ℚ
deriving DecidableEq, Repr

/-- Long-term weight set (line 112 of `synthesizer_agent.py`). -/
def wLong : Weights := { fundamental := 0.50, technical := 0.20, market_intel := 0.20, risk := 0.10 }

/-- Short-term weight set (line 114). -/
def wShort : Weights := { fundamental := 0.15, technical := 0.50, market_intel := 0.25, risk := 0.10 }

/-- Medium-term / swing weight set (line 116). -/
def wDefault : Weights := { fundamental := 0.30, technical := 0.40, market_intel := 0.20, risk := 0.10 }

/-- Sum of the four weights. -/
def wsum (w : Weights) : ℚ := w.fundamental + w.technical + w.market_intel + w.risk

/-- Embeds the weight selection of `_calculate_weighted_scores` (lines 108-116):
`user_context.get('time_horizon', 'medium')`, then a substring test of
`'long'` / `'short'` against the lowercased horizon. -/
def select_weights (time_horizon : String) : Weights :=
  if isInfixB "long".data (toLowerStr time_horizon) then wLong
  else if isInfixB "short".data (toLowerStr time_horizon) then wShort
  else wDefault

/-- Embeds `SynthesizerAgent._normalize_signal` (lines 160-171): uppercase the
signal, return BULLISH/BEARISH if any keyword of the respective vocabulary
occurs as a substring, NEUTRAL otherwise. -/
def normalize_signal (signal : String) : String :=
  let u := toUpperStr signal
  let bullish : List String := ["STRONG_BUY", "BUY", "BULLISH", "POSITIVE", "UNDERVALUED"]
  let bearish : List String := ["STRONG_SELL", "SELL", "BEARISH", "NEGATIVE", "OVERVALUED"]
  if bullish.any (fun s => isInfixB s.data u) then "BULLISH"
  else if bearish.any (fun s => isInfixB s.data u) then "BEARISH"
  else "NEUTRAL"

/-- Embeds `SynthesizerAgent._detect_conflicts` (lines 173-183): one record is
appended when at least one BULLISH and at least one BEARISH signal co-occur. -/
def detect_conflicts (signals : List String) : List String :=
  let bullish_count := signals.count "BULLISH"
  let bearish_count := signals.count "BEARISH"
  if 0 < bullish_count ∧ 0 < bearish_count then
    ["Mixed signals: " ++ toString bullish_count ++ " bullish, " ++
      toString bearish_count ++ " bearish"]
  else []

/-- The `signals` list built at lines 133-137 of `_calculate_weighted_scores`. -/
def signals_of (fundamental : FundamentalDict) (technical : TechnicalDict)
    (market_intel : MarketIntelDict) : List String :=
  [normalize_signal (fundamental.rating.getD "HOLD"),
   normalize_signal (technical.signal.getD "NEUTRAL"),
   normalize_signal (market_intel.overall_sentiment.getD "NEUTRAL")]

/-- Python's `round(q, 2)`.  On every value produced by the audited code the
argument times 100 is an integer, where every tie-breaking convention agrees
with Python's round-half-to-even, so Mathlib's `round` is a faithful model. -/
def round2 (q : ℚ) : ℚ := (round (q * 100) : ℤ) / 100

/-- The dictionary returned by `_calculate_weighted_scores` (lines 148-158). -/
structure ScoresResult where
  fundamental_score : ℤ
  technical_score : ℤ
  market_intel_score : ℤ
  risk_score : ℤ
  weighted_average : ℚ
  confidence_adjustment : ℤ
  final_score : ℚ
  weights_used : Weights
  conflicts : List String
deriving DecidableEq, Repr

/-- Embeds `SynthesizerAgent._calculate_weighted_scores` (lines 98-158).
The Python adjustment chain is `confidence_adjustment = 0`, then `10` if
`conflicts` is empty, else `-20` if `len(conflicts) >= 2`; the if-chain below
is the same three-way case split. -/
def calculate_weighted_scores (fundamental : FundamentalDict) (technical : TechnicalDict)
    (market_intel : MarketIntelDict) (risk : RiskDict) (user_context : UserContext) :
    ScoresResult :=
  let time_horizon := user_context.time_horizon.getD "medium"
  let weights := select_weights time_horizon
  let fund_score : ℤ := fundamental.score.getD 50
  let tech_score : ℤ := technical.score.getD 50
  let intel_score : ℤ := market_intel.score.getD 50
  let risk_score : ℤ := 100 - risk.risk_score.getD 50
  let weighted : ℚ :=
    (fund_score : ℚ) * weights.fundamental +
    (tech_score : ℚ) * weights.technical +
    (intel_score : ℚ) * weights.market_intel +
    (risk_score : ℚ) * weights.risk
  let signals := signals_of fundamental technical market_intel
  let conflicts := detect_conflicts signals
  let confidence_adjustment : ℤ :=
    if conflicts.isEmpty then 10
    else if 2 ≤ conflicts.length then -20
    else 0
  { fundamental_score := fund_score
    technical_score := tech_score
    market_intel_score := intel_score
    risk_score := risk.risk_score.getD 50
    weighted_average := round2 weighted
    confidence_adjustment := confidence_adjustment
    final_score := round2 (weighted + (confidence_adjustment : ℚ))
    weights_used := weights
    conflicts := conflicts }

/-! ## Synthesizer entry point and the synthesis stage's input dict

`SynthesizerAgent.analyze` (lines 54-96) reads the keys `fundamental_analysis`,
`technical_analysis`, `market_intel_analysis`, `risk_analysis`, `user_context`
(each defaulting to `{}`), while `StockAnalysisGraph._run_synthesis`
(lines 445-468) builds the input dict with the keys `fundamental`, `technical`,
`market_intel`, `risk`.  The input dict is embedded as a structure with one
field per distinct string key either side uses; `stock_data` feeds only the
prompt text, never the scores block, and is omitted. -/

structure AnalyzeData where
  fundamental : Option FundamentalDict
  technical : Option TechnicalDict
  market_intel : Option MarketIntelDict
  risk : Option RiskDict
  fundamental_analysis : Option FundamentalDict
  technical_analysis : Option TechnicalDict
  market_intel_analysis : Option MarketIntelDict
  risk_analysis : Option RiskDict
  user_context : Option UserContext
deriving Repr

/-- The scores block computed by `SynthesizerAgent.analyze` (lines 66-80): each
component is `data.get('<name>_analysis', {})`, `user_context` defaults to `{}`. -/
def analyze_scores (data : AnalyzeData) : ScoresResult :=
  calculate_weighted_scores (data.fundamental_analysis.getD emptyFund)
    (data.technical_analysis.getD emptyTech)
    (data.market_intel_analysis.getD emptyIntel)
    (data.risk_analysis.getD emptyRisk)
    (data.user_context.getD emptyCtx)

/-- The dict built by `StockAnalysisGraph._run_synthesis` (lines 454-460): the
pipeline slots are stored under `fundamental`, `technical`, `market_intel`,
`risk`; no `*_analysis` key and no `user_context` key is set. -/
def run_synthesis_data (fundamental : Option FundamentalDict)
    (technical : Option TechnicalDict) (market_intel : Option MarketIntelDict)
    (risk : Option RiskDict) : AnalyzeData :=
  { fundamental := fundamental
    technical := technical
    market_intel := market_intel
    risk := risk
    fundamental_analysis := none
    technical_analysis := none
    market_intel_analysis := none
    risk_analysis := none
    user_context := none }

/-! ## Pipeline state and stages (`src/orchestrator/langgraph_flow.py`) -/

/-- Stock bundle returned by the data collector; its payload is opaque to the
orchestration logic verified here. -/
structure StockData where
  ticker : String
deriving DecidableEq, Repr

/-- The `GraphState` TypedDict (lines 31-58).  `news_data` / `market_data`
payloads and the synthesized recommendation's content are opaque to the
claims and modelled as `Unit` / `String`. -/
structure PipelineState where
  ticker : String
  ticker_2 : Option String
  stock_data : Option StockData
  stock_data_2 : Option StockData
  news_data : Option Unit
  market_data : Option Unit
  fundamental_analysis : Option FundamentalDict
  fundamental_analysis_2 : Option FundamentalDict
  technical_analysis : Option TechnicalDict
  technical_analysis_2 : Option TechnicalDict
  market_intel_analysis : Option MarketIntelDict
  risk_analysis : Option RiskDict
  synthesized_recommendation : Option String
  errors : List String
  progress : List String
deriving Repr

/-- Embeds `StockAnalysisGraph._run_parallel_analysis` (lines 339-378): the
three producers run as sibling tasks gathered with `return_exceptions=True`;
each outcome is passed in as `Except String α` (`.error` models a raised
exception, with the exception text).  An exception is appended to `errors`
tagged with the producer's name; a success fills the producer's slot and logs
progress (`result.get('score', 0)`). -/
def run_parallel_analysis (state : PipelineState)
    (rf : Except String FundamentalDict) (rt : Except String TechnicalDict)
    (rm : Except String MarketIntelDict) : PipelineState :=
  match state.stock_data with
  | none => { state with errors := state.errors ++ ["No stock data for analysis"] }
  | some _ =>
    let s1 := match rf with
      | .error e => { state with errors := state.errors ++ ["Fundamental agent error: " ++ e] }
      | .ok r =>
        { state with fundamental_analysis := some r
                     progress := state.progress ++
                       ["✅ Fundamental: " ++ toString (r.score.getD 0) ++ "/100"] }
    let s2 := match rt with
      | .error e => { s1 with errors := s1.errors ++ ["Technical agent error: " ++ e] }
      | .ok r =>
        { s1 with technical_analysis := some r
                  progress := s1.progress ++
                    ["✅ Technical: " ++ toString (r.score.getD 0) ++ "/100"] }
    let s3 := match rm with
      | .error e => { s2 with errors := s2.errors ++ ["Market Intel agent error: " ++ e] }
      | .ok r =>
        { s2 with market_intel_analysis := some r
                  progress := s2.progress ++
                    ["✅ Market Intel: " ++ toString (r.score.getD 0) ++ "/100"] }
    s3

/-- Embeds `StockAnalysisGraph._collect_comparison_data` (lines 250-285); the
two `get_stock_data` outcomes are passed in (`.ok none` models a `None`
return, rendered `"None"` by `str()` in the error message). -/
def collect_comparison_data (state : PipelineState)
    (r1 r2 : Except String (Option StockData)) : PipelineState :=
  match state.ticker_2 with
  | none => { state with errors := state.errors ++ ["Second ticker required for comparison"] }
  | some ticker2 =>
    let s1 := match r1 with
      | .ok (some d) =>
        { state with stock_data := some d
                     progress := state.progress ++ ["✅ " ++ state.ticker ++ " data collected"] }
      | .ok none =>
        { state with errors := state.errors ++ ["Error fetching " ++ state.ticker ++ ": None"] }
      | .error e =>
        { state with errors := state.errors ++ ["Error fetching " ++ state.ticker ++ ": " ++ e] }
    let s2 := match r2 with
      | .ok (some d) =>
        { s1 with stock_data_2 := some d
                  progress := s1.progress ++ ["✅ " ++ ticker2 ++ " data collected"] }
      | .ok none =>
        { s1 with errors := s1.errors ++ ["Error fetching " ++ ticker2 ++ ": None"] }
      | .error e =>
        { s1 with errors := s1.errors ++ ["Error fetching " ++ ticker2 ++ ": " ++ e] }
    s2

/-- Embeds `StockAnalysisGraph._run_parallel_comparison_analysis`
(lines 380-417): fundamental and technical producers for each ticker; a
sibling that raised is silently skipped (no error entry in this stage). -/
def run_parallel_comparison_analysis (state : PipelineState)
    (r1 : Except String FundamentalDict) (r2 : Except String TechnicalDict)
    (r3 : Except String FundamentalDict) (r4 : Except String TechnicalDict) :
    PipelineState :=
  if state.stock_data.isNone || state.stock_data_2.isNone then
    { state with errors := state.errors ++ ["Missing stock data for comparison"] }
  else
    let s1 := match r1 with
      | .ok r =>
        { state with fundamental_analysis := some r
                     progress := state.progress ++
                       ["✅ " ++ state.ticker ++ " Fundamental: " ++
                         toString (r.score.getD 0) ++ "/100"] }
      | .error _ => state
    let s2 := match r2 with
      | .ok r =>
        { s1 with technical_analysis := some r
                  progress := s1.progress ++
                    ["✅ " ++ state.ticker ++ " Technical: " ++
                      toString (r.score.getD 0) ++ "/100"] }
      | .error _ => s1
    let s3 := match r3 with
      | .ok r =>
        { s2 with fundamental_analysis_2 := some r
                  progress := s2.progress ++
                    ["✅ " ++ (state.ticker_2.getD "") ++ " Fundamental: " ++
                      toString (r.score.getD 0) ++ "/100"] }
      | .error _ => s2
    let s4 := match r4 with
      | .ok r =>
        { s3 with technical_analysis_2 := some r
                  progress := s3.progress ++
                    ["✅ " ++ (state.ticker_2.getD "") ++ " Technical: " ++
                      toString (r.score.getD 0) ++ "/100"] }
      | .error _ => s3
    s4

/-- Embeds `StockAnalysisGraph._run_comparison_synthesis` (lines 470-490).
The source calls `self.comparison_agent.compare(ticker1=..., ticker2=...,
stock_data_1=..., stock_data_2=..., fundamental_1=..., fundamental_2=...,
technical_1=..., technical_2=...)`, but `ComparisonSynthesizerAgent.compare`
(`synthesizer_agent.py` lines 323-327) accepts only the positional parameters
`stock1_data, stock2_data`.  Python therefore raises `TypeError` at the call
site on every invocation, before any producer logic runs; the stage's
`except` block catches it and appends `"Comparison error: " + str(e)`, and
`synthesized_recommendation` is never written. -/
def run_comparison_synthesis (state : PipelineState) : PipelineState :=
  { state with
      errors := state.errors ++
        ["Comparison error: ComparisonSynthesizerAgent.compare() got an unexpected keyword argument \u0027ticker1\u0027"] }

/-- The full COMPARISON topology (`_build_comparison_graph`, lines 132-145):
collect both tickers, fan out the four producers, then comparison synthesis. -/
def comparison_pipeline (s0 : PipelineState)
    (d1 d2 : Except String (Option StockData))
    (f1 : Except String FundamentalDict) (t1 : Except String TechnicalDict)
    (f2 : Except String FundamentalDict) (t2 : Except String TechnicalDict) :
    PipelineState :=
  run_comparison_synthesis
    (run_parallel_comparison_analysis (collect_comparison_data s0 d1 d2) f1 t1 f2 t2)

/-! ## Intent routing (`src/orchestrator/intent_classifier.py`, `routing.py`) -/

/-- The `IntentType` enum (`intent_classifier.py` lines 11-21). -/
inductive IntentType where
  | price_check
  | technical_analysis
  | fundamental_analysis
  | sentiment_analysis
  | full_analysis
  | comparison
  | deep_dive
  | help
  | unknown
deriving DecidableEq, Repr

/-- The `Intent` model restricted to the fields `Router.validate_intent` reads. -/
structure Intent where
  type : IntentType
  tickers : List String
deriving DecidableEq, Repr

/-- The initial `GraphState` built by `StockAnalysisGraph.run` (lines 511-531). -/
def initial_state (intent : Intent) : PipelineState :=
  { ticker := intent.tickers.headD ""
    ticker_2 := intent.tickers.get? 1
    stock_data := none
    stock_data_2 := none
    news_data := none
    market_data := none
    fundamental_analysis := none
    fundamental_analysis_2 := none
    technical_analysis := none
    technical_analysis_2 := none
    market_intel_analysis := none
    risk_analysis := none
    synthesized_recommendation := none
    errors := []
    progress := [] }

/-- Embeds `Router.validate_intent` (`routing.py` lines 120-139): a pure
function from the intent to `(is_valid, error_message)`; no stage, network or
producer call occurs in it. -/
def validate_intent (intent : Intent) : Bool × Option String :=
  if intent.type = IntentType.unknown then
    (false, some "I couldn\u0027t understand your request. Try `/help` for available commands.")
  else if intent.type = IntentType.help then
    (true, none)
  else if intent.tickers.isEmpty then
    (false, some "Please specify a stock ticker. Example: `/a RELIANCE`")
  else if intent.type = IntentType.comparison ∧ intent.tickers.length < 2 then
    (false, some "Please specify two tickers for comparison. Example: `/c TCS INFY`")
  else
    (true, none)

/-! ## Portfolio decision engine (`src/orchestrator/portfolio_workflow.py`) -/

/-- A portfolio holding, restricted to the fields `_determine_action` reads. -/
structure Holding where
  ticker : String
  quantity : ℚ
  avg_price : ℚ
  stop_loss : Option ℚ
  target_price : Option ℚ
deriving DecidableEq, Repr

/-- The action/priority pair returned by `_determine_action`.  The `reason` and
`notes` fields of the Python dict are display text interpolating the same
numbers and are omitted from the embedding. -/
structure ActionDecision where
  action : String
  priority : String
deriving DecidableEq, Repr

/-- Rule 1's guard (lines 253-261): `if holding.stop_loss:` (Python truthiness,
so `0` and `None` both skip) and the relative distance is at most 2%. -/
def stop_loss_triggered (stop_loss : Option ℚ) (current_price : ℚ) : Bool :=
  match stop_loss with
  | none => false
  | some sl => if sl = 0 then false else decide ((current_price - sl) / sl * 100 ≤ 2)

/-- Rule 3's guard (lines 276-281): `if holding.target_price and
current_price >= holding.target_price`. -/
def target_reached (target_price : Option ℚ) (current_price : ℚ) : Bool :=
  match target_price with
  | none => false
  | some tp => if tp = 0 then false else decide (tp ≤ current_price)

/-- `fund_score = fundamental.get("score", 50) if fundamental else 50` (line 250). -/
def fund_score_of (fundamental : Option FundamentalDict) : ℤ :=
  match fundamental with
  | some f => f.score.getD 50
  | none => 50

/-- `tech_score = technical.get("score", 50) if technical else 50` (line 251). -/
def tech_score_of (technical : Option TechnicalDict) : ℤ :=
  match technical with
  | some t => t.score.getD 50
  | none => 50

/-- `pnl_percent` as computed by the caller `_analyze_single_holding`
(lines 162-165): `(pnl / cost_basis * 100) if cost_basis > 0 else 0`. -/
def pnl_percent_of (quantity avg_price current_price : ℚ) : ℚ :=
  let cost_basis := quantity * avg_price
  if 0 < cost_basis then (quantity * current_price - cost_basis) / cost_basis * 100 else 0

/-- Embeds `PortfolioAnalysisWorkflow._determine_action` (lines 230-364): the
fixed first-match-wins rule chain over a holding's state and the two scores.
Each Python `return` is one branch of the if-chain. -/
def determine_action (holding : Holding) (current_price : ℚ) (pnl_percent : ℚ)
    (fundamental : Option FundamentalDict) (technical : Option TechnicalDict) :
    ActionDecision :=
  let fund_score := fund_score_of fundamental
  let tech_score := tech_score_of technical
  if stop_loss_triggered holding.stop_loss current_price then
    ⟨"STOP_LOSS_HIT", "URGENT"⟩
  else if pnl_percent ≤ -15 then
    (if fund_score < 40 then ⟨"BOOK_ALL", "URGENT"⟩ else ⟨"HOLD", "HIGH"⟩)
  else if target_reached holding.target_price current_price then
    ⟨"BOOK_PARTIAL_50", "HIGH"⟩
  else if 25 ≤ pnl_percent then
    (if tech_score < 45 then ⟨"BOOK_PARTIAL_50", "HIGH"⟩
     else if 50 ≤ pnl_percent then ⟨"BOOK_PARTIAL_25", "MEDIUM"⟩
     else ⟨"TRAILING_STOP", "MEDIUM"⟩)
  else if fund_score < 35 then
    ⟨"BOOK_ALL", "HIGH"⟩
  else if 75 ≤ tech_score ∧ pnl_percent < 10 then
    ⟨"ADD_MORE", "MEDIUM"⟩
  else if 10 ≤ pnl_percent ∧ pnl_percent < 25 then
    (if 70 ≤ fund_score ∧ 65 ≤ tech_score then ⟨"HOLD", "LOW"⟩
     else ⟨"BOOK_PARTIAL_25", "MEDIUM"⟩)
  else if -15 < pnl_percent ∧ pnl_percent < 0 then
    (if 70 ≤ fund_score ∧ 60 ≤ tech_score then ⟨"ADD_MORE", "MEDIUM"⟩
     else ⟨"HOLD", "LOW"⟩)
  else if 0 ≤ pnl_percent ∧ pnl_percent < 10 then
    ⟨"HOLD", "LOW"⟩
  else
    ⟨"HOLD", "LOW"⟩

/-- The spec's weighted-average formula (spec §4.3, claim C8): the sum over the
four components of score times weight, a missing component's score defaulting
to the neutral midpoint 50 and risk entering inverted as `100 - risk_score`;
stated without the two-decimal display rounding the code applies. -/
def spec_weighted_average (fundamental : FundamentalDict) (technical : TechnicalDict)
    (market_intel : MarketIntelDict) (risk : RiskDict) (user_context : UserContext) : ℚ :=
  let w := select_weights (user_context.time_horizon.getD "medium")
  ((fundamental.score.getD 50 : ℤ) : ℚ) * w.fundamental +
  ((technical.score.getD 50 : ℤ) : ℚ) * w.technical +
  ((market_intel.score.getD 50 : ℤ) : ℚ) * w.market_intel +
  (((100 - risk.risk_score.getD 50 : ℤ)) : ℚ) * w.risk

/-! ## Helper lemmas -/

theorem round2_intCast_div (n : ℤ) : round2 ((n : ℚ) / 100) = (n : ℚ) / 100 := by
  unfold round2
  have h : ((n : ℚ) / 100) * 100 = (n : ℚ) := by field_simp
  rw [h, round_intCast]

theorem round2_add_int (q : ℚ) (n : ℤ) : round2 (q + (n : ℚ)) = round2 q + (n : ℚ) := by
  unfold round2
  have h : (q + (n : ℚ)) * 100 = q * 100 + ((n * 100 : ℤ) : ℚ) := by push_cast; ring
  rw [h, round_add_int]
  push_cast
  ring

theorem select_weights_mem (th : String) :
    select_weights th = wLong ∨ select_weights th = wShort ∨ select_weights th = wDefault := by
  unfold select_weights
  split_ifs <;> simp

/-! ## Claim theorems -/

/-- C7: for every time-horizon string the weight selection is the fixed 3-way
lookup — `long` wins, then `short`, else the default set — and the selected
weight set always sums to 1. -/
theorem select_weights_three_way (th : String) :
    select_weights th =
      (if isInfixB "long".data (toLowerStr th) then wLong
       else if isInfixB "short".data (toLowerStr th) then wShort
       else wDefault) ∧
    wsum (select_weights th) = 1 := by
  refine ⟨rfl, ?_⟩
  rcases select_weights_mem th with h | h | h <;> rw [h] <;>
    norm_num [wsum, wLong, wShort, wDefault]

/-- C1 counterexample: fundamental rating `BUY` and technical signal `SELL`
normalize to one BULLISH and one BEARISH signal, yet the computed
`confidence_adjustment` is `0` — not the `−20` the claim states, and `0` is
reached, contradicting the claim that it never is. -/
theorem confidence_adjustment_claim_false :
    signals_of ⟨some 60, some "BUY"⟩ ⟨some 40, some "SELL"⟩ ⟨some 50, some "NEUTRAL"⟩ =
      ["BULLISH", "BEARISH", "NEUTRAL"] ∧
    (calculate_weighted_scores ⟨some 60, some "BUY"⟩ ⟨some 40, some "SELL"⟩
        ⟨some 50, some "NEUTRAL"⟩ ⟨some 50⟩ ⟨none⟩).confidence_adjustment = 0 :=
  ⟨by decide, by decide⟩

/-- C1 (amended): the adjustment is `0` when the normalized signals contain at
least one BULLISH and at least one BEARISH entry and `+10` otherwise; the
value `−20` is unreachable because `_detect_conflicts` appends at most one
record, so `len(conflicts) >= 2` never holds. -/
theorem confidence_adjustment_two_way (f : FundamentalDict) (t : TechnicalDict)
    (m : MarketIntelDict) (r : RiskDict) (u : UserContext) :
    (calculate_weighted_scores f t m r u).confidence_adjustment =
      (if 0 < (signals_of f t m).count "BULLISH" ∧ 0 < (signals_of f t m).count "BEARISH"
        then 0 else 10) ∧
    (calculate_weighted_scores f t m r u).confidence_adjustment ≠ -20 := by
  have unf : (calculate_weighted_scores f t m r u).confidence_adjustment =
      (if (detect_conflicts (signals_of f t m)).isEmpty then (10 : ℤ)
       else if 2 ≤ (detect_conflicts (signals_of f t m)).length then -20 else 0) := rfl
  have dc : detect_conflicts (signals_of f t m) =
      (if 0 < (signals_of f t m).count "BULLISH" ∧ 0 < (signals_of f t m).count "BEARISH"
        then ["Mixed signals: " ++ toString ((signals_of f t m).count "BULLISH") ++
          " bullish, " ++ toString ((signals_of f t m).count "BEARISH") ++ " bearish"]
        else []) := rfl
  have key : (calculate_weighted_scores f t m r u).confidence_adjustment =
      (if 0 < (signals_of f t m).count "BULLISH" ∧ 0 < (signals_of f t m).count "BEARISH"
        then 0 else 10) := by
    rw [unf, dc]
    by_cases hC : 0 < (signals_of f t m).count "BULLISH" ∧
        0 < (signals_of f t m).count "BEARISH"
    · rw [if_pos hC, if_pos hC]
      simp
    · rw [if_neg hC, if_neg hC]
      simp
  refine ⟨key, ?_⟩
  rw [key]
  split_ifs <;> decide

theorem round2_eq_self (n : ℤ) (q : ℚ) (h : q = (n : ℚ) / 100) : round2 q = q := by
  subst h
  exact round2_intCast_div n

theorem select_weights_medium : select_weights "medium" = wDefault := by
  have h1 : isInfixB "long".data (toLowerStr "medium") = false := by decide
  have h2 : isInfixB "short".data (toLowerStr "medium") = false := by decide
  simp [select_weights, h1, h2]

theorem round2_weighted (a b c d : ℤ) (w : Weights)
    (hw : w = wLong ∨ w = wShort ∨ w = wDefault) :
    round2 ((a : ℚ) * w.fundamental + (b : ℚ) * w.technical + (c : ℚ) * w.market_intel +
        (d : ℚ) * w.risk) =
      (a : ℚ) * w.fundamental + (b : ℚ) * w.technical + (c : ℚ) * w.market_intel +
        (d : ℚ) * w.risk := by
  rcases hw with h | h | h <;> subst h
  · apply round2_eq_self (50 * a + 20 * b + 20 * c + 10 * d)
    simp only [wLong]
    push_cast
    norm_num
    ring
  · apply round2_eq_self (15 * a + 50 * b + 25 * c + 10 * d)
    simp only [wShort]
    push_cast
    norm_num
    ring
  · apply round2_eq_self (30 * a + 40 * b + 20 * c + 10 * d)
    simp only [wDefault]
    push_cast
    norm_num
    ring

theorem wavg_eq_spec (f : FundamentalDict) (t : TechnicalDict) (m : MarketIntelDict)
    (r : RiskDict) (u : UserContext) :
    (calculate_weighted_scores f t m r u).weighted_average =
      spec_weighted_average f t m r u := by
  have unf : (calculate_weighted_scores f t m r u).weighted_average =
      round2 (spec_weighted_average f t m r u) := rfl
  rw [unf]
  have h := round2_weighted (f.score.getD 50) (t.score.getD 50) (m.score.getD 50)
    (100 - r.risk_score.getD 50) (select_weights (u.time_horizon.getD "medium"))
    (select_weights_mem _)
  simpa [spec_weighted_average] using h

theorem final_eq_wavg_plus_adj (f : FundamentalDict) (t : TechnicalDict)
    (m : MarketIntelDict) (r : RiskDict) (u : UserContext) :
    (calculate_weighted_scores f t m r u).final_score =
      (calculate_weighted_scores f t m r u).weighted_average +
        ((calculate_weighted_scores f t m r u).confidence_adjustment : ℚ) := by
  have unf : (calculate_weighted_scores f t m r u).final_score =
      round2 (spec_weighted_average f t m r u +
        ((calculate_weighted_scores f t m r u).confidence_adjustment : ℚ)) := rfl
  have unf2 : (calculate_weighted_scores f t m r u).weighted_average =
      round2 (spec_weighted_average f t m r u) := rfl
  rw [unf, round2_add_int, unf2]

/-- C8: the weighted average computed by `_calculate_weighted_scores` equals
the spec's formula `Σ scoreᵢ × weightᵢ`, with any missing component's score
defaulting to the neutral midpoint 50 (synthesis never aborts) and the risk
component entering inverted as `100 − risk_score`. -/
theorem weighted_average_is_spec_sum (f : FundamentalDict) (t : TechnicalDict)
    (m : MarketIntelDict) (r : RiskDict) (u : UserContext) :
    (calculate_weighted_scores f t m r u).weighted_average =
      spec_weighted_average f t m r u :=
  wavg_eq_spec f t m r u

/-- C9: `final_score` always equals `weighted_average` plus the confidence
adjustment, with no clamping to [0,100] afterwards: the all-bullish all-100
input with zero risk yields a final score of 110. -/
theorem final_score_unclamped :
    (∀ (f : FundamentalDict) (t : TechnicalDict) (m : MarketIntelDict) (r : RiskDict)
      (u : UserContext),
      (calculate_weighted_scores f t m r u).final_score =
        (calculate_weighted_scores f t m r u).weighted_average +
          ((calculate_weighted_scores f t m r u).confidence_adjustment : ℚ)) ∧
    100 < (calculate_weighted_scores ⟨some 100, some "BUY"⟩ ⟨some 100, some "BUY"⟩
        ⟨some 100, some "POSITIVE"⟩ ⟨some 0⟩ ⟨none⟩).final_score := by
  constructor
  · intro f t m r u
    exact final_eq_wavg_plus_adj f t m r u
  · rw [final_eq_wavg_plus_adj, wavg_eq_spec]
    have hadj : (calculate_weighted_scores ⟨some 100, some "BUY"⟩ ⟨some 100, some "BUY"⟩
        ⟨some 100, some "POSITIVE"⟩ ⟨some 0⟩ ⟨none⟩).confidence_adjustment = 10 := by decide
    rw [hadj]
    norm_num [spec_weighted_average, select_weights_medium, wDefault]

/-- C3: because `_run_synthesis` stores the producer outputs under the keys
`fundamental`, `technical`, `market_intel`, `risk` while the Synthesizer reads
`fundamental_analysis`, `technical_analysis`, `market_intel_analysis`,
`risk_analysis`, the scores block of the synthesis stage is constant: all four
component scores default to 50, no conflict is detected, the weighted average
is 50 and the final score is 60 — regardless of the producers' outputs. -/
theorem synthesis_stage_scores_constant (f : Option FundamentalDict)
    (t : Option TechnicalDict) (m : Option MarketIntelDict) (r : Option RiskDict) :
    (analyze_scores (run_synthesis_data f t m r)).fundamental_score = 50 ∧
    (analyze_scores (run_synthesis_data f t m r)).technical_score = 50 ∧
    (analyze_scores (run_synthesis_data f t m r)).market_intel_score = 50 ∧
    (analyze_scores (run_synthesis_data f t m r)).risk_score = 50 ∧
    (analyze_scores (run_synthesis_data f t m r)).conflicts = [] ∧
    (analyze_scores (run_synthesis_data f t m r)).confidence_adjustment = 10 ∧
    (analyze_scores (run_synthesis_data f t m r)).weighted_average = 50 ∧
    (analyze_scores (run_synthesis_data f t m r)).final_score = 60 := by
  have e : analyze_scores (run_synthesis_data f t m r) =
      calculate_weighted_scores emptyFund emptyTech emptyIntel emptyRisk emptyCtx := rfl
  rw [e]
  refine ⟨by decide, by decide, by decide, by decide, by decide, by decide, ?_, ?_⟩
  · rw [wavg_eq_spec]
    norm_num [spec_weighted_average, select_weights_medium, wDefault, emptyFund,
      emptyTech, emptyIntel, emptyRisk, emptyCtx]
  · rw [final_eq_wavg_plus_adj, wavg_eq_spec]
    have hadj : (calculate_weighted_scores emptyFund emptyTech emptyIntel emptyRisk
        emptyCtx).confidence_adjustment = 10 := by decide
    rw [hadj]
    norm_num [spec_weighted_average, select_weights_medium, wDefault, emptyFund,
      emptyTech, emptyIntel, emptyRisk, emptyCtx]

/-- C4 counterexample: a COMPARISON intent carrying the duplicate ticker list
`["TCS", "TCS"]` — reachable, e.g. from the query `/c TCS TCS` — is accepted
by `validate_intent`, although it does not carry two distinct tickers. -/
theorem validate_intent_accepts_duplicate_comparison :
    (validate_intent { type := IntentType.comparison, tickers := ["TCS", "TCS"] }).1 = true ∧
    ¬ (["TCS", "TCS"] : List String).Nodup :=
  ⟨by decide, by decide⟩

/-- C4 (amended): `validate_intent` is a pure check accepting exactly this:
HELP always; UNKNOWN never; COMPARISON when it carries at least two tickers
(distinctness and an exact count of two are not checked); every other type
when it carries at least one ticker. -/
theorem validate_intent_characterization (intent : Intent) :
    (validate_intent intent).1 = true ↔
      (intent.type = IntentType.help ∨
        (intent.type ≠ IntentType.unknown ∧ intent.tickers ≠ [] ∧
          (intent.type = IntentType.comparison → 2 ≤ intent.tickers.length))) := by
  unfold validate_intent
  split_ifs with h1 h2 h3 h4
  · simp [h1]
  · simp [h2]
  · simp only [List.isEmpty_iff] at h3
    simp [h1, h2, h3]
  · obtain ⟨hc, hlt⟩ := h4
    simp only [List.isEmpty_iff] at h3
    have hn : ¬ (2 ≤ intent.tickers.length) := by omega
    simp [h1, h2, h3, hc, hn]
  · simp only [List.isEmpty_iff] at h3
    have hcomp : intent.type = IntentType.comparison → 2 ≤ intent.tickers.length := by
      intro hc
      by_contra hlt
      exact h4 ⟨hc, by omega⟩
    simp [h1, h2, h3]
    exact hcomp

/-- C5: when `stop_loss` is a positive price and the current price is within 2%
above it, the decision is `STOP_LOSS_HIT` with priority URGENT regardless of
`pnl_percent`, `target_price` and both scores — rule 1 precedes every other
rule. -/
theorem stop_loss_rule_wins (holding : Holding) (current_price pnl_percent : ℚ)
    (fundamental : Option FundamentalDict) (technical : Option TechnicalDict)
    (sl : ℚ) (hsl : holding.stop_loss = some sl) (hpos : 0 < sl)
    (hnear : (current_price - sl) / sl * 100 ≤ 2) :
    determine_action holding current_price pnl_percent fundamental technical =
      ⟨"STOP_LOSS_HIT", "URGENT"⟩ := by
  have htrig : stop_loss_triggered holding.stop_loss current_price = true := by
    rw [hsl]
    simp only [stop_loss_triggered]
    rw [if_neg (ne_of_gt hpos)]
    exact decide_eq_true hnear
  unfold determine_action
  rw [if_pos htrig]

/-- C5 witness: `avg_price` 100, `current_price` 101, `stop_loss` 100 — the
1% distance is within 2%, so the decision is STOP_LOSS_HIT/URGENT although
pnl is positive and the target price 101 is also reached. -/
theorem stop_loss_rule_wins_witness :
    determine_action ⟨"TCS", 10, 100, some 100, some 101⟩ 101 (pnl_percent_of 10 100 101)
      (some ⟨some 80, some "BUY"⟩) (some ⟨some 80, some "BUY"⟩) =
      ⟨"STOP_LOSS_HIT", "URGENT"⟩ :=
  stop_loss_rule_wins _ 101 _ _ _ 100 rfl (by norm_num) (by norm_num)

/-- C6: when the stop-loss rule does not fire and `pnl_percent ≤ −15`, the
decision is BOOK_ALL/URGENT if the fundamental score is below 40 and
HOLD/HIGH otherwise. -/
theorem deep_loss_rule (holding : Holding) (current_price pnl_percent : ℚ)
    (fundamental : Option FundamentalDict) (technical : Option TechnicalDict)
    (hstop : stop_loss_triggered holding.stop_loss current_price = false)
    (hpnl : pnl_percent ≤ -15) :
    determine_action holding current_price pnl_percent fundamental technical =
      (if fund_score_of fundamental < 40 then ⟨"BOOK_ALL", "URGENT"⟩
       else ⟨"HOLD", "HIGH"⟩) := by
  have h1 : ¬ (stop_loss_triggered holding.stop_loss current_price = true) := by
    simp [hstop]
  unfold determine_action
  rw [if_neg h1, if_pos hpnl]

/-- C6 witness: `avg_price` 100, `current_price` 80 gives pnl −20% ≤ −15%, and
fundamental score 30 < 40 forces BOOK_ALL/URGENT. -/
theorem deep_loss_rule_witness :
    determine_action ⟨"TCS", 10, 100, none, none⟩ 80 (pnl_percent_of 10 100 80)
      (some ⟨some 30, none⟩) none = ⟨"BOOK_ALL", "URGENT"⟩ := by
  rw [deep_loss_rule ⟨"TCS", 10, 100, none, none⟩ 80 (pnl_percent_of 10 100 80)
    (some ⟨some 30, none⟩) none rfl (by norm_num [pnl_percent_of])]
  norm_num [fund_score_of]

/-- C10: in the STANDARD three-way fan-out, whenever exactly one sibling
producer raises and the other two succeed, the two successful slots are
populated, the failing producer's slot stays empty, exactly one error entry
tagged with the failing producer's name is appended, and the exception does
not propagate (the stage totally returns a state).  One conjunct per choice of
the failing sibling. -/
theorem fanout_single_failure_isolation (s : PipelineState) (d : StockData)
    (rf : Except String FundamentalDict) (rt : Except String TechnicalDict)
    (rm : Except String MarketIntelDict)
    (hd : s.stock_data = some d)
    (hf : s.fundamental_analysis = none) (ht : s.technical_analysis = none)
    (hm : s.market_intel_analysis = none) (e : String) :
    (∀ (a : TechnicalDict) (b : MarketIntelDict),
      rf = .error e → rt = .ok a → rm = .ok b →
      (run_parallel_analysis s rf rt rm).errors =
          s.errors ++ ["Fundamental agent error: " ++ e] ∧
        (run_parallel_analysis s rf rt rm).fundamental_analysis = none ∧
        (run_parallel_analysis s rf rt rm).technical_analysis = some a ∧
        (run_parallel_analysis s rf rt rm).market_intel_analysis = some b) ∧
    (∀ (a : FundamentalDict) (b : MarketIntelDict),
      rf = .ok a → rt = .error e → rm = .ok b →
      (run_parallel_analysis s rf rt rm).errors =
          s.errors ++ ["Technical agent error: " ++ e] ∧
        (run_parallel_analysis s rf rt rm).fundamental_analysis = some a ∧
        (run_parallel_analysis s rf rt rm).technical_analysis = none ∧
        (run_parallel_analysis s rf rt rm).market_intel_analysis = some b) ∧
    (∀ (a : FundamentalDict) (b : TechnicalDict),
      rf = .ok a → rt = .ok b → rm = .error e →
      (run_parallel_analysis s rf rt rm).errors =
          s.errors ++ ["Market Intel agent error: " ++ e] ∧
        (run_parallel_analysis s rf rt rm).fundamental_analysis = some a ∧
        (run_parallel_analysis s rf rt rm).technical_analysis = some b ∧
        (run_parallel_analysis s rf rt rm).market_intel_analysis = none) := by
  refine ⟨?_, ?_, ?_⟩ <;>
    (intro a b h1 h2 h3
     subst h1
     subst h2
     subst h3
     simp [run_parallel_analysis, hd, hf, ht, hm])

/-- C10 witness: with stock data present, technical raising `boom`, and the
other two producers succeeding, the stage yields exactly one tagged error,
keeps the technical slot empty and fills the other two. -/
theorem fanout_single_failure_isolation_witness :
    (run_parallel_analysis (initial_state ⟨IntentType.full_analysis, ["TCS"]⟩
          |> fun s0 => { s0 with stock_data := some ⟨"TCS"⟩ })
        (.ok ⟨some 70, some "BUY"⟩) (.error "boom") (.ok ⟨some 60, some "NEUTRAL"⟩)).errors =
        [] ++ ["Technical agent error: " ++ "boom"] ∧
      (run_parallel_analysis (initial_state ⟨IntentType.full_analysis, ["TCS"]⟩
          |> fun s0 => { s0 with stock_data := some ⟨"TCS"⟩ })
        (.ok ⟨some 70, some "BUY"⟩) (.error "boom")
        (.ok ⟨some 60, some "NEUTRAL"⟩)).fundamental_analysis = some ⟨some 70, some "BUY"⟩ ∧
      (run_parallel_analysis (initial_state ⟨IntentType.full_analysis, ["TCS"]⟩
          |> fun s0 => { s0 with stock_data := some ⟨"TCS"⟩ })
        (.ok ⟨some 70, some "BUY"⟩) (.error "boom")
        (.ok ⟨some 60, some "NEUTRAL"⟩)).technical_analysis = none ∧
      (run_parallel_analysis (initial_state ⟨IntentType.full_analysis, ["TCS"]⟩
          |> fun s0 => { s0 with stock_data := some ⟨"TCS"⟩ })
        (.ok ⟨some 70, some "BUY"⟩) (.error "boom")
        (.ok ⟨some 60, some "NEUTRAL"⟩)).market_intel_analysis = some ⟨some 60, some "NEUTRAL"⟩ :=
  (fanout_single_failure_isolation _ ⟨"TCS"⟩ _ _ _ rfl rfl rfl rfl "boom").2.1
    ⟨some 70, some "BUY"⟩ ⟨some 60, some "NEUTRAL"⟩ rfl rfl rfl

/-- C2: violated by the COMPARISON topology.  Even when both stock fetches and
all four producers succeed, the synthesis stage's keyword-mismatched call to
`compare` raises `TypeError`, so the final state has a non-empty `errors` list
and `synthesized_recommendation` stays `None`, although every upstream slot
was filled. -/
theorem comparison_all_success_still_errors :
    (comparison_pipeline (initial_state ⟨IntentType.comparison, ["TCS", "INFY"]⟩)
        (.ok (some ⟨"TCS"⟩)) (.ok (some ⟨"INFY"⟩))
        (.ok ⟨some 70, some "BUY"⟩) (.ok ⟨some 65, some "BULLISH"⟩)
        (.ok ⟨some 60, some "HOLD"⟩) (.ok ⟨some 55, some "NEUTRAL"⟩)).stock_data =
      some ⟨"TCS"⟩ ∧
    (comparison_pipeline (initial_state ⟨IntentType.comparison, ["TCS", "INFY"]⟩)
        (.ok (some ⟨"TCS"⟩)) (.ok (some ⟨"INFY"⟩))
        (.ok ⟨some 70, some "BUY"⟩) (.ok ⟨some 65, some "BULLISH"⟩)
        (.ok ⟨some 60, some "HOLD"⟩) (.ok ⟨some 55, some "NEUTRAL"⟩)).stock_data_2 =
      some ⟨"INFY"⟩ ∧
    (comparison_pipeline (initial_state ⟨IntentType.comparison, ["TCS", "INFY"]⟩)
        (.ok (some ⟨"TCS"⟩)) (.ok (some ⟨"INFY"⟩))
        (.ok ⟨some 70, some "BUY"⟩) (.ok ⟨some 65, some "BULLISH"⟩)
        (.ok ⟨some 60, some "HOLD"⟩)
        (.ok ⟨some 55, some "NEUTRAL"⟩)).fundamental_analysis = some ⟨some 70, some "BUY"⟩ ∧
    (comparison_pipeline (initial_state ⟨IntentType.comparison, ["TCS", "INFY"]⟩)
        (.ok (some ⟨"TCS"⟩)) (.ok (some ⟨"INFY"⟩))
        (.ok ⟨some 70, some "BUY"⟩) (.ok ⟨some 65, some "BULLISH"⟩)
        (.ok ⟨some 60, some "HOLD"⟩)
        (.ok ⟨some 55, some "NEUTRAL"⟩)).technical_analysis = some ⟨some 65, some "BULLISH"⟩ ∧
    (comparison_pipeline (initial_state ⟨IntentType.comparison, ["TCS", "INFY"]⟩)
        (.ok (some ⟨"TCS"⟩)) (.ok (some ⟨"INFY"⟩))
        (.ok ⟨some 70, some "BUY"⟩) (.ok ⟨some 65, some "BULLISH"⟩)
        (.ok ⟨some 60, some "HOLD"⟩)
        (.ok ⟨some 55, some "NEUTRAL"⟩)).fundamental_analysis_2 = some ⟨some 60, some "HOLD"⟩ ∧
    (comparison_pipeline (initial_state ⟨IntentType.comparison, ["TCS", "INFY"]⟩)
        (.ok (some ⟨"TCS"⟩)) (.ok (some ⟨"INFY"⟩))
        (.ok ⟨some 70, some "BUY"⟩) (.ok ⟨some 65, some "BULLISH"⟩)
        (.ok ⟨some 60, some "HOLD"⟩)
        (.ok ⟨some 55, some "NEUTRAL"⟩)).technical_analysis_2 = some ⟨some 55, some "NEUTRAL"⟩ ∧
    (comparison_pipeline (initial_state ⟨IntentType.comparison, ["TCS", "INFY"]⟩)
        (.ok (some ⟨"TCS"⟩)) (.ok (some ⟨"INFY"⟩))
        (.ok ⟨some 70, some "BUY"⟩) (.ok ⟨some 65, some "BULLISH"⟩)
        (.ok ⟨some 60, some "HOLD"⟩)
        (.ok ⟨some 55, some "NEUTRAL"⟩)).synthesized_recommendation = none ∧
    (comparison_pipeline (initial_state ⟨IntentType.comparison, ["TCS", "INFY"]⟩)
        (.ok (some ⟨"TCS"⟩)) (.ok (some ⟨"INFY"⟩))
        (.ok ⟨some 70, some "BUY"⟩) (.ok ⟨some 65, some "BULLISH"⟩)
        (.ok ⟨some 60, some "HOLD"⟩) (.ok ⟨some 55, some "NEUTRAL"⟩)).errors =
      ["Comparison error: ComparisonSynthesizerAgent.compare() got an unexpected keyword argument \u0027ticker1\u0027"] :=
  ⟨rfl, rfl, rfl, rfl, rfl, rfl, rfl, rfl⟩
